import Mathlib

/-!
Shallow embedding of the MissionChallenge core: the Gemini-backed text
service (`app/services/gemini_service.py`), the BLIP image-caption service
(`app/services/image_service.py`), the two agent tools
(`app/agents/challenge_tool.py`, `app/agents/evaluation_tool.py`) and the
orchestrating agent (`app/agents/user_interaction_agent.py`).

External backends (the Gemini SDK call, the BLIP inference) are modelled as
abstract call outcomes of type `Except String String` (an `error` models a
raised exception, an `ok` the returned value); each embedded function also
reports the list of prompts it sent to the text backend, so that
"zero backend calls" properties are statements about that list.
-/

namespace MissionChallenge

/-- Is `pat` a prefix of `s` (character lists)? Helper for the model of
Python substring containment. -/
def listPrefix : List Char → List Char → Bool
  | [], _ => true
  | _ :: _, [] => false
  | p :: ps, c :: cs => (p == c) && listPrefix ps cs

/-- Does `pat` occur as a contiguous substring of `s` (character lists)? -/
def listSub (pat : List Char) : List Char → Bool
  | [] => pat.isEmpty
  | c :: cs => listPrefix pat (c :: cs) || listSub pat cs

/-- Model of the Python expression `pat in s` on strings. -/
def strIn (pat s : String) : Bool := listSub pat.data s.data

/-- Model of Python `s.lower()`. The keyword checks it feeds are against
fixed Hebrew keywords, on which both Python's and this per-character ASCII
lowering are the identity. -/
def pyLower (s : String) : String := ⟨s.data.map Char.toLower⟩

/-- Python truthiness of `Optional[str]`: `None` and `""` are falsy. -/
def optTruthy : Option String → Bool
  | none => false
  | some s => s != ""

/-! ## ChallengeGenerationTool (`app/agents/challenge_tool.py`) -/

/-- The fixed challenge-generation prompt
(`ChallengeGenerationTool.challenge_prompt_template`). -/
def challengePromptTemplate : String :=
  "אתה מנחה משחק אתגרים יצירתי ומהנה. משימתך היא ליצור אתגר עבור המשתמש. האתגר צריך להיות מיועד לאדם אחד, לדרוש חשיבה יצירתית ולהשתמש בחפצים נפוצים הנמצאים בדרך כלל בבית. ההוראות באתגר חייבות להיות ברורות לחלוטין, ולהסביר בדיוק מה על המשתתף ליצור או לעשות כך שיוכל לצלם תמונה ולהוכיח עמידה באתגר. האתגר צריך להיות פשוט לביצוע מעשי, אך מעניין ומפעיל את הדמיון. נסח את האתגר בשפה העברית, באורך של שורה אחת עד שתי שורות קצרות."

/-- Fixed apology returned by the challenge tool on an empty, placeholder
or error-marked backend response. -/
def challengeApology : String :=
  "מצטער, היתה בעיה ביצירת האתגר כרגע. נסה שוב מאוחר יותר."

/-- Fixed string returned by the challenge tool when the backend call raises. -/
def challengeInternalError : String := "שגיאה פנימית בעת יצירת אתגר."

/-- `ChallengeGenerationTool._execute`. `g` is the behaviour of
`gemini_service.generate_text` (error = raised exception). Returns the
tool's result string together with the prompts sent to the backend. -/
def challengeToolRun (g : String → Except String String) : String × List String :=
  match g challengePromptTemplate with
  | Except.error _ => (challengeInternalError, [challengePromptTemplate])
  | Except.ok topic =>
    if topic == "" || strIn "Placeholder response" topic || strIn "Error:" topic then
      (challengeApology, [challengePromptTemplate])
    else (topic, [challengePromptTemplate])

/-! ## EvaluationTool (`app/agents/evaluation_tool.py`) -/

/-- The `EvaluationInput` pydantic model. -/
structure EvaluationInput where
  topic : String
  caption1 : String
  caption2 : String

/-- `EvaluationTool.evaluation_prompt_template`, with the three
`str.format` placeholders applied. -/
def evaluationPrompt (inputs : EvaluationInput) : String :=
  "אתה שופט מומחה וחסר פניות במשחק אתגר תמונות. תפקידך להעריך שתי הגשות לאתגר נתון.\nבהתחשב באתגר: \x27" ++ inputs.topic ++
  "\x27.\nלהלן תיאורים של שתי תמונות שהוגשו כפתרונות לאתגר (התיאורים נוצרו על ידי AI אחר ומתארים את תוכן התמונות):\nתמונה 1: " ++ inputs.caption1 ++
  "\nתמונה 2: " ++ inputs.caption2 ++
  "\n\nעבור כל תמונה, אנא ספק ציון מ-1 עד 10 המייצג את מידת ההצלחה בביצוע האתגר. שקול יצירתיות, בהירות ועד כמה התמונה מייצגת חזותית את הפתרון לאתגר.\nלאחר מכן, הכרז על התמונה הזוכה (תמונה 1 או תמונה 2).\nלבסוף, ספק הסבר קצר וקולע (עד שתי שורות) מדוע התמונה הזו נבחרה כמנצחת, תוך התמקדות בסיבה המרכזית להחלטה. היה אובייקטיבי וברור.\n\nהפלט הרצוי בעברית ובפורמט הבא:\nתמונה 1 - ציון: [הציון כאן]/10\nתמונה 2 - ציון: [הציון כאן]/10\nהתמונה הזוכה היא: תמונה [1/2]\nהסבר קצר לזכייה: [ההסבר הקצר כאן]"

/-- Fixed Hebrew validation-error string of the evaluation tool. -/
def evaluationValidationError : String :=
  "שגיאה: יש לספק את נושא האתגר ושני תיאורי תמונות לצורך הערכה."

/-- Fixed apology returned by the evaluation tool on an empty, placeholder
or error-marked backend response. -/
def evaluationApology : String :=
  "מצטער, היתה בעיה בעיבוד ההערכה כרגע. נסה שוב מאוחר יותר."

/-- Fixed string returned by the evaluation tool when the backend call raises. -/
def evaluationInternalError : String := "שגיאה פנימית בעת הערכת התוצאות."

/-- `EvaluationTool._execute`. Validation (`not all([...])`, empty strings
being falsy) happens before any backend call. -/
def evaluationToolRun (inputs : EvaluationInput)
    (g : String → Except String String) : String × List String :=
  if inputs.topic == "" || inputs.caption1 == "" || inputs.caption2 == "" then
    (evaluationValidationError, [])
  else
    match g (evaluationPrompt inputs) with
    | Except.error _ => (evaluationInternalError, [evaluationPrompt inputs])
    | Except.ok result =>
      if result == "" || strIn "Placeholder response" result || strIn "Error:" result then
        (evaluationApology, [evaluationPrompt inputs])
      else (result, [evaluationPrompt inputs])

/-! ## UserInteractionAgent (`app/agents/user_interaction_agent.py`) -/

/-- The rules/help keywords checked (against the lowered message) first. -/
def rulesKeywords : List String := ["כללים", "הוראות", "איך משחקים"]

/-- `self.game_rules`: the static game-rules text. -/
def gameRulesText : String :=
  "ברוכים הבאים לאתגר התמונות! המשחק עובד כך:\n1. בקשו ממני \x27אתגר חדש\x27 ואני אצור לכם משימה יצירתית.\n2. כל אחד משני המשתתפים (או שחקן יחיד בשני תפקידים) מעלה תמונה המייצגת את הפתרון שלו לאתגר.\n3. לאחר העלאת שתי התמונות, אני אעריך אותן ואכריז על המנצח!\nמוכנים להתחיל? בקשו אתגר חדש או שאלו אם משהו לא ברור."

/-- `self.system_prompt`: the agent persona description passed to the base
class and reused in the generic conversational prompt. -/
def agentSystemPrompt : String :=
  "אתה \x27מנחה משחק אתגר התמונות\x27, סוכן AI ידידותי, מסביר פנים ומומחה בהנחיית משחקים. מטרתך היא לנהל את המשחק בצורה חלקה ומהנה עבור המשתמשים.\nיש לך גישה לכלים הבאים: \x27ChallengeGenerator\x27 (ליצירת אתגרים חדשים) ו-\x27SubmissionEvaluator\x27 (להערכת הגשות לאתגרים).\n\nהתנהלות מול המשתמש:\n- התחל בהסבר קצר של כללי המשחק אם המשתמש חדש או מבקש זאת.\n- אם המשתמש מבקש \x27אתגר חדש\x27, \x27משימה חדשה\x27 או דומה, השתמש בכלי \x27ChallengeGenerator\x27 כדי ליצור אתגר והצג אותו למשתמש. זכור את נושא האתגר שנוצר.\n- אם המשתמש מעלה תמונות (שיגיעו אליך כתיאורי טקסט מוכנים) וקיים אתגר פעיל, השתמש בכלי \x27SubmissionEvaluator\x27 כדי להעריך את ההגשות. הצג את התוצאה למשתמש.\n- אם המשתמש שואל שאלה כללית על המשחק או מנהל שיחה שאינה קשורה ישירות לבקשת אתגר או הערכת הגשות, השב בצורה ידידותית ואינפורמטיבית מבלי להשתמש בכלים, אלא אם כן נדרש במפורש.\n- שמור על טון שיחה חיובי, סבלני ועוזר. אם אינך בטוח כיצד להגיב או מה כוונת המשתמש, בקש הבהרה.\n- נהל רישום פנימי של \x27נושא האתגר הנוכחי\x27 כדי להעבירו כראוי לכלי ההערכה."

/-- The first intent check:
`any(keyword in user_message.lower() for keyword in [...])`. -/
def rulesRequested (msg : String) : Bool :=
  rulesKeywords.any (fun k => strIn k (pyLower msg))

/-- The second intent check:
`"אתגר חדש" in user_message or "צור אתגר" in user_message`. -/
def newChallengeRequested (msg : String) : Bool :=
  strIn "אתגר חדש" msg || strIn "צור אתגר" msg

/-- The `image_captions` dict argument, reduced to its two looked-up keys
(`.get("caption1")`, `.get("caption2")`). -/
structure CaptionDict where
  caption1 : Option String
  caption2 : Option String

/-- The third intent check:
`image_captions and image_captions.get("caption1") and image_captions.get("caption2")`
(an absent dict, an absent key and an empty string are all falsy). -/
def captionsPresent : Option CaptionDict → Bool
  | none => false
  | some d => optTruthy d.caption1 && optTruthy d.caption2

/-- Fixed reply when evaluation is requested before any challenge exists. -/
def noChallengeYetReply : String :=
  "לא נוצר עדיין אתגר. אנא בקשו \x27אתגר חדש\x27 תחילה."

/-- Fixed banner prefixed to a freshly generated challenge topic. -/
def challengeBanner : String := "האתגר החדש שלכם הוא:\n"

/-- Fixed banner prefixed to an evaluation result. -/
def evaluationBanner : String := "תוצאות ההערכה:\n"

/-- Fixed fallback reply when the generic branch gets an empty or
placeholder-marked backend response. -/
def notSureReply : String := "אני לא בטוח איך להגיב על זה. אפשר לנסות משהו אחר?"

/-- Fixed reply when the generic branch's backend call raises. -/
def internalErrorReply : String := "מצטער, היתה לי שגיאה פנימית."

/-- The generic conversational prompt composed by the fallback branch:
persona, current topic (or the not-yet-set marker), raw user message,
closing instruction. -/
def genericPrompt (topic : Option String) (msg : String) : String :=
  agentSystemPrompt ++ "\n\n" ++
  "האתגר הנוכחי הוא: " ++
  (match topic with
   | some t => if t != "" then t else "לא נקבע עדיין"
   | none => "לא נקבע עדיין") ++ "\n\n" ++
  "המשתמש אומר: \"" ++ msg ++ "\"\n\n" ++
  "כיצד עליך להגיב באופן מועיל ושיחתי בהתאם לתפקידך כמנהל המשחק? אם המשתמש שואל על משהו שאינו קשור ישירות למשחק, הזכר לו בעדינות את מטרת המשחק או הצע להתחיל אתגר חדש."

/-- Result of one `process_user_interaction` call: the reply, the value of
`current_challenge_topic` afterwards, how many times each tool was invoked,
and the prompts sent to `gemini_service.generate_text`. -/
structure AgentResult where
  reply : String
  topic : Option String
  challengeToolCalls : Nat
  evalToolCalls : Nat
  backendPrompts : List String

/-- The fallback branch of `process_user_interaction`: compose the generic
prompt, call the backend, keep the response unless it is empty or contains
"Placeholder response"; a raised exception yields the internal-error reply. -/
def genericRun (topic0 : Option String) (msg : String)
    (g : String → Except String String) : AgentResult :=
  match g (genericPrompt topic0 msg) with
  | Except.error _ =>
    ⟨internalErrorReply, topic0, 0, 0, [genericPrompt topic0 msg]⟩
  | Except.ok response =>
    if response != "" && !(strIn "Placeholder response" response) then
      ⟨response, topic0, 0, 0, [genericPrompt topic0 msg]⟩
    else
      ⟨notSureReply, topic0, 0, 0, [genericPrompt topic0 msg]⟩

/-- `UserInteractionAgent.process_user_interaction`. `topic0` is
`self.current_challenge_topic` before the call; `g` is the behaviour of
`gemini_service.generate_text` by prompt. In the evaluation branch the
`getD ""` accesses model `image_captions["caption1"]` etc., reachable only
under the `captionsPresent`/`optTruthy` guards where the fields are
present and non-empty. -/
def processUserInteraction (topic0 : Option String) (msg : String)
    (captions : Option CaptionDict)
    (g : String → Except String String) : AgentResult :=
  if rulesRequested msg then
    ⟨gameRulesText, topic0, 0, 0, []⟩
  else if newChallengeRequested msg then
    let r := challengeToolRun g
    if strIn "מצטער" r.1 || strIn "שגיאה" r.1 then
      ⟨r.1, none, 1, 0, r.2⟩
    else
      ⟨challengeBanner ++ r.1, some r.1, 1, 0, r.2⟩
  else if captionsPresent captions then
    if optTruthy topic0 = false then
      ⟨noChallengeYetReply, topic0, 0, 0, []⟩
    else
      let d := captions.getD ⟨none, none⟩
      let r := evaluationToolRun
        ⟨topic0.getD "", d.caption1.getD "", d.caption2.getD ""⟩ g
      ⟨evaluationBanner ++ r.1, topic0, 0, 1, r.2⟩
  else
    genericRun topic0 msg g

/-! ## GeminiService (`app/services/gemini_service.py`) -/

/-- The shape of a Gemini SDK response as far as `generate_text` inspects
it: the `.text` of each part carrying one (a part without a `text`
attribute is `none`), and the response-level `.text` attribute when
present. -/
structure GeminiResponse where
  parts : List (Option String)
  text : Option String

/-- `"".join(part.text for part in response.parts if hasattr(part, "text"))`. -/
def partsText (r : GeminiResponse) : String :=
  String.join (r.parts.filterMap id)

/-- `GeminiService.generate_text`. `clientInitialized` models
`self.client` being truthy; `call` is the behaviour of the SDK call
`self.client.generate_content` by prompt (error = raised exception). -/
def generate_text (clientInitialized : Bool) (prompt : String)
    (call : String → Except String GeminiResponse) : String :=
  if clientInitialized = false then "Error: Gemini client not initialized."
  else
    match call prompt with
    | Except.error e => "Error: LLM call failed - " ++ e
    | Except.ok response =>
      if !response.parts.isEmpty && partsText response != "" then
        partsText response
      else
        match response.text with
        | some t =>
          if t != "" then t
          else "Error: LLM returned no usable content or request was blocked."
        | none => "Error: LLM returned no usable content or request was blocked."

/-! ## ImageService (`app/services/image_service.py`) -/

/-- Construction outcome of `ImageService`: whether `self.model` and
`self.processor` are non-`None` (loading failure leaves both `None`). -/
structure ImageServiceState where
  modelLoaded : Bool
  processorLoaded : Bool

/-- `"Error: Image captioning model not available."` -/
def modelNotAvailableError : String := "Error: Image captioning model not available."

/-- `"Error: No image provided for captioning."` -/
def noImageProvidedError : String := "Error: No image provided for captioning."

/-- `ImageService._blocking_generate_caption`. The image is opaque to the
embedded control flow (only `is None` is inspected); `inference` abstracts
the RGB conversion, processor, model and decode pipeline on the image
(error = raised exception). -/
def blockingGenerateCaption (st : ImageServiceState) (image : Option Unit)
    (inference : Except String String) : String :=
  if !st.modelLoaded || !st.processorLoaded then modelNotAvailableError
  else
    match image with
    | none => noImageProvidedError
    | some _ =>
      match inference with
      | Except.error _ => "Error generating image caption."
      | Except.ok caption => caption

/-- `ImageService.generate_caption` (the async wrapper): re-checks the
loaded state and the `None` image before delegating to the blocking body
on a worker thread. -/
def generate_caption (st : ImageServiceState) (image : Option Unit)
    (inference : Except String String) : String :=
  if !st.modelLoaded || !st.processorLoaded then modelNotAvailableError
  else
    match image with
    | none => noImageProvidedError
    | some _ => blockingGenerateCaption st image inference

/-! ## Helper lemmas -/

theorem genericRun_topic (topic0 : Option String) (msg : String)
    (g : String → Except String String) :
    (genericRun topic0 msg g).topic = topic0 := by
  unfold genericRun
  cases hE : g (genericPrompt topic0 msg) with
  | error e => rfl
  | ok resp =>
    by_cases hb : (resp != "" && !(strIn "Placeholder response" resp)) = true
    · simp [hb]
    · simp [hb]

theorem genericRun_evalCalls (topic0 : Option String) (msg : String)
    (g : String → Except String String) :
    (genericRun topic0 msg g).evalToolCalls = 0 := by
  unfold genericRun
  cases hE : g (genericPrompt topic0 msg) with
  | error e => rfl
  | ok resp =>
    by_cases hb : (resp != "" && !(strIn "Placeholder response" resp)) = true
    · simp [hb]
    · simp [hb]

theorem genericRun_prompts (topic0 : Option String) (msg : String)
    (g : String → Except String String) :
    (genericRun topic0 msg g).backendPrompts = [genericPrompt topic0 msg] := by
  unfold genericRun
  cases hE : g (genericPrompt topic0 msg) with
  | error e => rfl
  | ok resp =>
    by_cases hb : (resp != "" && !(strIn "Placeholder response" resp)) = true
    · simp [hb]
    · simp [hb]

/-! ## Claim theorems -/

/-- C1: for every new-challenge intent (a message containing a
new-challenge keyword and no rules keyword): if the challenge tool's
returned text contains no failure marker, the stored topic afterwards
equals that text and the reply is the text prefixed with the fixed banner;
if the text contains an apology/error marker, the stored topic afterwards
is `none` and the reply is the text unchanged. -/
theorem C1_new_challenge_transition (topic0 : Option String) (msg : String)
    (captions : Option CaptionDict) (g : String → Except String String)
    (hnc : newChallengeRequested msg = true)
    (hnr : rulesRequested msg = false) :
    ((strIn "מצטער" (challengeToolRun g).1 || strIn "שגיאה" (challengeToolRun g).1) = false →
      (processUserInteraction topic0 msg captions g).topic = some (challengeToolRun g).1 ∧
      (processUserInteraction topic0 msg captions g).reply =
        challengeBanner ++ (challengeToolRun g).1) ∧
    ((strIn "מצטער" (challengeToolRun g).1 || strIn "שגיאה" (challengeToolRun g).1) = true →
      (processUserInteraction topic0 msg captions g).topic = none ∧
      (processUserInteraction topic0 msg captions g).reply = (challengeToolRun g).1) := by
  constructor
  · intro h
    simp [processUserInteraction, hnr, hnc, h]
  · intro h
    simp [processUserInteraction, hnr, hnc, h]

/-- C1 witness: a successful generation at a concrete input. -/
theorem C1_witness :
    (processUserInteraction none "אתגר חדש" none
        (fun _ => Except.ok "בנה מגדל מכוסות")).topic = some "בנה מגדל מכוסות" ∧
    (processUserInteraction none "אתגר חדש" none
        (fun _ => Except.ok "בנה מגדל מכוסות")).reply =
      challengeBanner ++ "בנה מגדל מכוסות" := by
  have h := (C1_new_challenge_transition none "אתגר חדש" none
      (fun _ => Except.ok "בנה מגדל מכוסות") (by decide) (by decide)).1 (by decide)
  have e : (challengeToolRun (fun _ => Except.ok "בנה מגדל מכוסות")).1 =
      "בנה מגדל מכוסות" := by decide
  rw [e] at h
  exact h

/-- C2: a message containing both a rules keyword and a new-challenge
keyword yields the static rules text, invokes the challenge tool zero
times, makes no backend call and changes no state: the rules intent has
strictly higher priority. -/
theorem C2_rules_priority (topic0 : Option String) (msg : String)
    (captions : Option CaptionDict) (g : String → Except String String)
    (hr : rulesRequested msg = true)
    (hnc : newChallengeRequested msg = true) :
    (processUserInteraction topic0 msg captions g).reply = gameRulesText ∧
    (processUserInteraction topic0 msg captions g).topic = topic0 ∧
    (processUserInteraction topic0 msg captions g).challengeToolCalls = 0 ∧
    (processUserInteraction topic0 msg captions g).evalToolCalls = 0 ∧
    (processUserInteraction topic0 msg captions g).backendPrompts = [] := by
  simp [processUserInteraction, hr]

/-- C2 witness: a concrete message carrying both kinds of keyword. -/
theorem C2_witness :
    (processUserInteraction (some "נושא") "כללים אתגר חדש" none
        (fun _ => Except.ok "x")).reply = gameRulesText ∧
    (processUserInteraction (some "נושא") "כללים אתגר חדש" none
        (fun _ => Except.ok "x")).challengeToolCalls = 0 :=
  ⟨(C2_rules_priority (some "נושא") "כללים אתגר חדש" none _
      (by decide) (by decide)).1,
   (C2_rules_priority (some "נושא") "כללים אתגר חדש" none _
      (by decide) (by decide)).2.2.1⟩

/-- C3: both caption fields non-empty, no rules or new-challenge keyword,
and no active challenge topic: the reply is the fixed
"generate a challenge first" string, the evaluation tool is invoked zero
times and no backend call is made. -/
theorem C3_evaluation_before_challenge (msg c1 c2 : String)
    (g : String → Except String String)
    (hr : rulesRequested msg = false) (hnc : newChallengeRequested msg = false)
    (h1 : c1 ≠ "") (h2 : c2 ≠ "") :
    (processUserInteraction none msg (some ⟨some c1, some c2⟩) g).reply =
      noChallengeYetReply ∧
    (processUserInteraction none msg (some ⟨some c1, some c2⟩) g).topic = none ∧
    (processUserInteraction none msg (some ⟨some c1, some c2⟩) g).evalToolCalls = 0 ∧
    (processUserInteraction none msg (some ⟨some c1, some c2⟩) g).backendPrompts = [] := by
  simp [processUserInteraction, hr, hnc, captionsPresent, optTruthy, h1, h2]

/-- C3 witness: concrete captions submitted before any challenge. -/
theorem C3_witness :
    (processUserInteraction none "הנה ההגשות" (some ⟨some "בננה", some "צלחת"⟩)
        (fun _ => Except.ok "x")).reply = noChallengeYetReply :=
  (C3_evaluation_before_challenge "הנה ההגשות" "בננה" "צלחת" _
    (by decide) (by decide) (by decide) (by decide)).1

/-- C4: an `EvaluationInput` with any of topic, caption1, caption2 empty
makes the evaluation tool return the fixed Hebrew validation-error string
with zero backend calls. -/
theorem C4_evaluation_validation (inputs : EvaluationInput)
    (g : String → Except String String)
    (h : inputs.topic = "" ∨ inputs.caption1 = "" ∨ inputs.caption2 = "") :
    evaluationToolRun inputs g = (evaluationValidationError, []) := by
  unfold evaluationToolRun
  rcases h with h | h | h <;> simp [h]

/-- C4 witness: an empty topic at a concrete input. -/
theorem C4_witness :
    evaluationToolRun ⟨"", "בננה", "צלחת"⟩ (fun _ => Except.ok "x") =
      (evaluationValidationError, []) :=
  C4_evaluation_validation ⟨"", "בננה", "צלחת"⟩ _ (Or.inl rfl)

/-- C5 counterexample: with the model/processor not loaded at
construction, `generate_caption` on a `None` image returns the
model-not-available error, not the no-image error — so the claim's
"for every configuration state" fails. -/
theorem C5_counterexample :
    generate_caption ⟨false, false⟩ none (Except.ok "a caption") =
      modelNotAvailableError ∧
    generate_caption ⟨false, false⟩ none (Except.ok "a caption") ≠
      noImageProvidedError :=
  ⟨rfl, by decide⟩

/-- C5 amended: `generate_caption` on a `None` image returns the no-image
error exactly when the model and processor loaded successfully; when
loading failed it returns the model-not-available error instead. -/
theorem C5_amended_null_image (st : ImageServiceState)
    (inference : Except String String) :
    generate_caption st none inference =
      if st.modelLoaded && st.processorLoaded then noImageProvidedError
      else modelNotAvailableError := by
  rcases st with ⟨m, p⟩
  cases m <;> cases p <;> rfl

/-- C6: the challenge tool always returns one of: the backend's good text,
or one of two fixed displayable apology strings; a raised backend
exception always yields the fixed internal-error string (independent of
the exception's message), and an empty, placeholder-marked or error-marked
response always yields the fixed apology. -/
theorem C6_challenge_tool_absorbs_failures (g : String → Except String String) :
    ((challengeToolRun g).1 = challengeInternalError ∨
     (challengeToolRun g).1 = challengeApology ∨
     ∃ t, g challengePromptTemplate = Except.ok t ∧ (challengeToolRun g).1 = t) ∧
    (∀ e, g challengePromptTemplate = Except.error e →
      (challengeToolRun g).1 = challengeInternalError) ∧
    (∀ t, g challengePromptTemplate = Except.ok t →
      (t == "" || strIn "Placeholder response" t || strIn "Error:" t) = true →
      (challengeToolRun g).1 = challengeApology) := by
  refine ⟨?_, ?_, ?_⟩
  · cases hg : g challengePromptTemplate with
    | error e => exact Or.inl (by simp [challengeToolRun, hg])
    | ok t =>
      by_cases hb : (t == "" || strIn "Placeholder response" t || strIn "Error:" t) = true
      · exact Or.inr (Or.inl (by simp [challengeToolRun, hg, hb]))
      · exact Or.inr (Or.inr ⟨t, rfl, by simp [challengeToolRun, hg, hb]⟩)
  · intro e he
    simp [challengeToolRun, he]
  · intro t ht hb
    simp [challengeToolRun, ht, hb]

/-- C6 witness: a raised backend exception is absorbed into the fixed
internal-error string. -/
theorem C6_witness :
    (challengeToolRun (fun _ => Except.error "socket timeout")).1 =
      challengeInternalError :=
  (C6_challenge_tool_absorbs_failures _).2.1 "socket timeout" rfl

/-- C7: for every non-empty prompt, when the SDK call succeeds and the
response carries usable text (either via its parts or via the `.text`
fallback), `generate_text` returns that text exactly, unmodified. -/
theorem C7_generate_text_identity (prompt t : String) (r : GeminiResponse)
    (call : String → Except String GeminiResponse)
    (hp : prompt ≠ "") (hc : call prompt = Except.ok r) :
    (r.parts ≠ [] → partsText r = t → t ≠ "" →
      generate_text true prompt call = t) ∧
    (partsText r = "" → r.text = some t → t ≠ "" →
      generate_text true prompt call = t) := by
  constructor
  · intro hparts hjoin ht
    simp [generate_text, hc, List.isEmpty_iff, hparts, hjoin, ht]
  · intro hjoin htext ht
    simp [generate_text, hc, hjoin, htext, ht]

/-- C7 witness: a single-part response round-trips verbatim. -/
theorem C7_witness :
    generate_text true "hi" (fun _ => Except.ok ⟨[some "hello world"], none⟩) =
      "hello world" :=
  (C7_generate_text_identity "hi" "hello world" ⟨[some "hello world"], none⟩ _
    (by decide) rfl).1 (by decide) (by decide) (by decide)

/-- C8 counterexample: on the generic branch, a raised backend call yields
the fixed internal-error reply, not the fixed "not sure how to respond"
reply the claim asserts for a failing backend call. -/
theorem C8_counterexample :
    (processUserInteraction none "שלום" none
        (fun _ => Except.error "socket closed")).reply = internalErrorReply ∧
    (processUserInteraction none "שלום" none
        (fun _ => Except.error "socket closed")).reply ≠ notSureReply :=
  ⟨rfl, by decide⟩

/-- C8 amended: for every message matching no rules, new-challenge or
evaluation intent, the orchestrator composes the generic prompt (persona,
current topic or not-yet-set marker, raw message), sends exactly that
prompt to the backend, leaves the topic unchanged, and replies with: the
backend's text when it is non-empty and not placeholder-marked; the fixed
"not sure how to respond" string when it is empty or placeholder-marked;
and a distinct fixed internal-error string when the backend call raises. -/
theorem C8_generic_fallback (topic0 : Option String) (msg : String)
    (captions : Option CaptionDict) (g : String → Except String String)
    (hr : rulesRequested msg = false) (hnc : newChallengeRequested msg = false)
    (hcap : captionsPresent captions = false) :
    (processUserInteraction topic0 msg captions g).backendPrompts =
      [genericPrompt topic0 msg] ∧
    (processUserInteraction topic0 msg captions g).topic = topic0 ∧
    (∀ e, g (genericPrompt topic0 msg) = Except.error e →
      (processUserInteraction topic0 msg captions g).reply = internalErrorReply) ∧
    (∀ resp, g (genericPrompt topic0 msg) = Except.ok resp →
      (resp != "" && !(strIn "Placeholder response" resp)) = true →
      (processUserInteraction topic0 msg captions g).reply = resp) ∧
    (∀ resp, g (genericPrompt topic0 msg) = Except.ok resp →
      (resp != "" && !(strIn "Placeholder response" resp)) = false →
      (processUserInteraction topic0 msg captions g).reply = notSureReply) := by
  have hp : processUserInteraction topic0 msg captions g = genericRun topic0 msg g := by
    simp [processUserInteraction, hr, hnc, hcap]
  rw [hp]
  refine ⟨genericRun_prompts topic0 msg g, genericRun_topic topic0 msg g,
    ?_, ?_, ?_⟩
  · intro e he
    simp [genericRun, he]
  · intro resp hresp hb
    simp [genericRun, hresp, hb]
  · intro resp hresp hb
    simp [genericRun, hresp, hb]

/-- C8 witness: a concrete generic exchange whose backend text is returned
verbatim. -/
theorem C8_witness :
    (processUserInteraction none "מה שלומך" none
        (fun _ => Except.ok "בסדר גמור")).reply = "בסדר גמור" :=
  (C8_generic_fallback none "מה שלומך" none _
    (by decide) (by decide) rfl).2.2.2.1 "בסדר גמור" rfl (by decide)

/-- C9: a handle call that dispatches to the evaluation tool (captions
present, rules and new-challenge intents absent, a truthy topic) leaves
`current_challenge_topic` exactly as it was, and invokes the evaluation
tool once. -/
theorem C9_evaluation_preserves_state (topic0 : Option String) (msg : String)
    (captions : Option CaptionDict) (g : String → Except String String)
    (hr : rulesRequested msg = false) (hnc : newChallengeRequested msg = false)
    (hcap : captionsPresent captions = true) (ht : optTruthy topic0 = true) :
    (processUserInteraction topic0 msg captions g).topic = topic0 ∧
    (processUserInteraction topic0 msg captions g).evalToolCalls = 1 := by
  simp [processUserInteraction, hr, hnc, hcap, ht]

/-- C9 witness: a concrete evaluation run leaving the topic untouched. -/
theorem C9_witness :
    (processUserInteraction (some "בנה כובע") "הנה ההגשות"
        (some ⟨some "בננה", some "צלחת"⟩)
        (fun _ => Except.ok "תמונה 1 ניצחה")).topic = some "בנה כובע" :=
  (C9_evaluation_preserves_state (some "בנה כובע") "הנה ההגשות"
    (some ⟨some "בננה", some "צלחת"⟩) _
    (by decide) (by decide) (by decide) (by decide)).1

/-- C10: when the side input provides exactly one non-empty caption and
the message matches no rules or new-challenge keyword, the call does not
invoke the evaluation tool and does not take the validation-error path: it
is exactly the generic conversational branch, issuing one backend
text-generation call on the generic prompt. -/
theorem C10_single_caption_falls_through (topic0 : Option String) (msg : String)
    (d : CaptionDict) (g : String → Except String String)
    (hr : rulesRequested msg = false) (hnc : newChallengeRequested msg = false)
    (hone : (optTruthy d.caption1 && optTruthy d.caption2) = false)
    (hany : (optTruthy d.caption1 || optTruthy d.caption2) = true) :
    processUserInteraction topic0 msg (some d) g = genericRun topic0 msg g ∧
    (processUserInteraction topic0 msg (some d) g).evalToolCalls = 0 ∧
    (processUserInteraction topic0 msg (some d) g).backendPrompts =
      [genericPrompt topic0 msg] := by
  have hp : processUserInteraction topic0 msg (some d) g = genericRun topic0 msg g := by
    simp [processUserInteraction, hr, hnc, captionsPresent, hone]
  refine ⟨hp, ?_, ?_⟩
  · rw [hp]; exact genericRun_evalCalls topic0 msg g
  · rw [hp]; exact genericRun_prompts topic0 msg g

/-- C10 witness: one caption only, at a concrete input. -/
theorem C10_witness :
    (processUserInteraction none "הנה התמונה" (some ⟨some "בננה", none⟩)
        (fun _ => Except.ok "תגובה")).evalToolCalls = 0 :=
  (C10_single_caption_falls_through none "הנה התמונה" ⟨some "בננה", none⟩ _
    (by decide) (by decide) (by decide) (by decide)).2.1

end MissionChallenge

